import Mathlib

/-!
# Verification of the mostro cancel / order / ingress subsystems

A shallow embedding of the daemon's message handlers:

* `src/app/cancel.rs` — `cancel_action`, `cancel_add_invoice`,
  `cancel_pay_hold_invoice`;
* `src/app/order.rs` — `order_action`;
* `src/app.rs` — `handle_message_action` and the per-notification body of `run`.

Stateful code is modelled by explicit state passing: the order store is a
`List Order`, and every handler returns the updated store together with the
list of externally visible side effects (messages sent, hold-invoice RPCs,
published events) and an optional propagated error.  External collaborators
that live outside `src/` (the sqlite store helpers, the event publisher, the
Lightning driver, the `mostro_core` codec) are modelled from the spec and
documented as such on each definition.
-/

namespace Mostro

/-- Order status, `mostro_core::order::Status`.  The source stores the status
as a string and compares with `Status::X.to_string()`; the renderings are
pairwise distinct so a closed sum type with decidable equality is faithful. -/
inductive Status
  | Pending
  | WaitingPayment
  | WaitingBuyerInvoice
  | Active
  | FiatSent
  | Settled
  | Completed
  | Dispute
  | Canceled
  | CooperativelyCanceled
  | CanceledByAdmin
  | SettledByAdmin
  | Expired
deriving DecidableEq, Repr

/-- Order kind, `mostro_core::order::Kind` (string-compared in the source). -/
inductive OrderKind
  | Buy
  | Sell
deriving DecidableEq, Repr

/-- Message actions, `mostro_core::message::Action` (inbound actions plus the
outbound notification actions used by the handlers under `src/`). -/
inductive Action
  | NewOrder
  | TakeSell
  | TakeBuy
  | AddInvoice
  | PayInvoice
  | FiatSent
  | Release
  | Cancel
  | Dispute
  | RateUser
  | AdminCancel
  | AdminSettle
  | AdminAddSolver
  | AdminTakeDispute
  | Canceled
  | CooperativeCancelInitiatedByYou
  | CooperativeCancelInitiatedByPeer
  | CooperativeCancelAccepted
deriving DecidableEq, Repr

/-- Rejection reasons, `mostro_core::message::CantDoReason`. -/
inductive CantDoReason
  | InvalidAmount
  | InvalidParameters
  | IsNotYourOrder
  | OrderAlreadyCanceled
  | OutOfRangeSatsAmount
  | OutOfRangeFiatAmount
  | NotAuthorized
  | PendingOrderExists
deriving DecidableEq, Repr

/-- The order row (`mostro_core::order::Order`), restricted to the fields the
handlers under `src/` read or write.  Pubkeys are their string renderings, as
in the source (`pubkey.to_string()` comparisons). -/
structure Order where
  id : Nat
  kind : OrderKind
  status : Status
  creator_pubkey : String
  buyer_pubkey : Option String
  seller_pubkey : Option String
  amount : Int
  fee : Int
  price_from_api : Bool
  hash : Option String
  preimage : Option String
  cancel_initiator_pubkey : Option String
  buyer_cooperativecancel : Bool
  seller_cooperativecancel : Bool
deriving DecidableEq, Repr

/-- Externally visible side effects of a handler: direct gift-wrapped
notifications (`send_cant_do_msg`, `send_new_order_msg`), Lightning RPCs
(`LndConnector::cancel_hold_invoice`) and published replaceable events. -/
inductive Effect
  | cantDo (request_id : Option Nat) (order_id : Option Nat)
      (reason : Option CantDoReason) (dest : String)
  | sendMsg (request_id : Option Nat) (order_id : Option Nat)
      (action : Action) (dest : String)
  | cancelHoldInvoice (hash : String)
  | publishEvent (order_id : Nat) (status : Status)
  | publishOrder (order_id : Option Nat) (dest : String)
deriving DecidableEq, Repr

/-- Result of running one handler: the updated order store, the effects it
performed (in order), and the error it returned, if any (`Err(e)` in the
source; effects performed before the error are kept). -/
structure HandlerResult where
  db : List Order
  effects : List Effect
  error : Option String
deriving DecidableEq, Repr

/-- A pubkey is associated with an order when it is the buyer, the seller or
the creator. -/
def isParticipant (pk : String) (o : Order) : Bool :=
  o.buyer_pubkey == some pk || o.seller_pubkey == some pk || o.creator_pubkey == pk

/-- Modelled from the spec: `find_order_by_id` (crate `db`, not under `src/`)
looks an order up by id restricted to orders associated with the sender's
pubkey ("Order store … lookup by id + participant key"; a `Cancel` for an
order "not associated with the sender" is treated as not found). -/
def find_order_by_id (db : List Order) (order_id : Nat) (pk : String) : Option Order :=
  db.find? (fun o => o.id == order_id && isParticipant pk o)

/-- `sqlx_crud` row save: replace the row with the same id. -/
def storeOrder (db : List Order) (o : Order) : List Order :=
  db.map (fun r => if r.id = o.id then o else r)

/-- Modelled from the spec: `update_order_event` (crate `util`, not under
`src/`) publishes a new replaceable order event carrying the given status and
stores the row's new status and event id ("Updating an order means publishing
a new version and storing its new event id"; "atomic field updates"). -/
def update_order_event (db : List Order) (st : Status) (o : Order) :
    List Order × List Effect :=
  (db.map (fun r => if r.id = o.id then { r with status := st } else r),
   [Effect.publishEvent o.id st])

/-- Modelled from the spec: `edit_buyer_pubkey_order` (crate `db`, not under
`src/`): atomic update of the row's buyer pubkey. -/
def edit_buyer_pubkey_order (db : List Order) (order_id : Nat) (pk : Option String) :
    List Order :=
  db.map (fun r => if r.id = order_id then { r with buyer_pubkey := pk } else r)

/-- Modelled from the spec: `edit_seller_pubkey_order` (crate `db`, not under
`src/`): atomic update of the row's seller pubkey. -/
def edit_seller_pubkey_order (db : List Order) (order_id : Nat) (pk : Option String) :
    List Order :=
  db.map (fun r => if r.id = order_id then { r with seller_pubkey := pk } else r)

/-- Modelled from the spec: `update_order_to_initial_state` (crate `db`, not
under `src/`): the order is republished, "`amount` and `fee` are reset … ,
status returns to `Pending`" — atomic update of status, amount and fee. -/
def update_order_to_initial_state (db : List Order) (order_id : Nat)
    (amount fee : Int) : List Order :=
  db.map (fun r =>
    if r.id = order_id then { r with status := Status.Pending, amount := amount, fee := fee }
    else r)

/-- Hold-invoice release performed at the top of `cancel_add_invoice`
(src/app/cancel.rs:201-204) and inside `cancel_pay_hold_invoice`
(src/app/cancel.rs:294-300): cancel the hold invoice when the hash is set. -/
def holdInvoiceEffects (o : Order) : List Effect :=
  match o.hash with
  | some h => [Effect.cancelHoldInvoice h]
  | none => []

/-- `cancel_add_invoice` (src/app/cancel.rs:193-270): cancel of a Sell order
sitting in `WaitingBuyerInvoice`.  The hold invoice (if any) is cancelled
first; then only the buyer may proceed; a buyer who is the creator terminates
the order (the source passes `Status::CooperativelyCanceled` to
`update_order_event` here), otherwise the order is reset and republished as
`Pending`. -/
def cancel_add_invoice (request_id : Option Nat) (sender : String) (order : Order)
    (db : List Order) : HandlerResult :=
  let hashEffects := holdInvoiceEffects order
  match order.seller_pubkey, order.buyer_pubkey with
  | none, _ => ⟨db, hashEffects, some "Missing seller pubkey"⟩
  | some _, none => ⟨db, hashEffects, some "Missing buyer pubkey"⟩
  | some seller, some buyer =>
    if buyer ≠ sender then
      ⟨db, hashEffects ++ [Effect.cantDo request_id (some order.id) none sender], none⟩
    else if order.creator_pubkey = buyer then
      let (db1, pub1) := update_order_event db Status.CooperativelyCanceled order
      ⟨db1,
       hashEffects ++ pub1 ++
         [Effect.sendMsg request_id (some order.id) Action.Canceled sender,
          Effect.sendMsg none (some order.id) Action.Canceled seller],
       none⟩
    else
      let amount := if order.price_from_api then 0 else order.amount
      let fee := if order.price_from_api then 0 else order.fee
      let db1 := edit_buyer_pubkey_order db order.id none
      let db2 := update_order_to_initial_state db1 order.id amount fee
      let (db3, pub1) := update_order_event db2 Status.Pending order
      ⟨db3,
       hashEffects ++ pub1 ++
         [Effect.sendMsg request_id (some order.id) Action.Canceled sender],
       none⟩

/-- `cancel_pay_hold_invoice` (src/app/cancel.rs:272-352): cancel of a Buy
order sitting in `WaitingPayment`.  Only the seller may proceed; the hold
invoice (if any) is then cancelled; a seller who is the creator terminates the
order as `Canceled`, otherwise the order is reset and republished as
`Pending`. -/
def cancel_pay_hold_invoice (request_id : Option Nat) (sender : String) (order : Order)
    (db : List Order) : HandlerResult :=
  match order.seller_pubkey, order.buyer_pubkey with
  | none, _ => ⟨db, [], some "Missing seller pubkey"⟩
  | some _, none => ⟨db, [], some "Missing buyer pubkey"⟩
  | some seller, some _buyer =>
    if seller ≠ sender then
      ⟨db, [Effect.cantDo request_id (some order.id) none sender], none⟩
    else
      let hashEffects := holdInvoiceEffects order
      if order.creator_pubkey = seller then
        let (db1, pub1) := update_order_event db Status.Canceled order
        ⟨db1,
         hashEffects ++ pub1 ++
           [Effect.sendMsg request_id (some order.id) Action.Canceled sender,
            Effect.sendMsg none (some order.id) Action.Canceled seller],
         none⟩
      else
        let amount := if order.price_from_api then 0 else order.amount
        let fee := if order.price_from_api then 0 else order.fee
        let db1 := edit_seller_pubkey_order db order.id none
        let db2 := update_order_to_initial_state db1 order.id amount fee
        let (db3, pub1) := update_order_event db2 Status.Pending order
        ⟨db3,
         hashEffects ++ pub1 ++
           [Effect.sendMsg request_id (some order.id) Action.Canceled sender],
         none⟩

/-- The cooperative-cancel arm of `cancel_action` (src/app/cancel.rs:100-189),
reached for orders in `Active`, `FiatSent` or `Dispute`.  The first accepted
`Cancel` records the initiator and notifies both parties; a repeat from the
initiator is rejected with a reasonless `CantDo` and persists nothing; a
`Cancel` from a different pubkey releases the hold invoice (if any) and
completes the cooperative cancel. -/
def cancel_action_cooperative (request_id : Option Nat) (order_id : Nat)
    (sender : String) (order : Order) (db : List Order) : HandlerResult :=
  match order.seller_pubkey, order.buyer_pubkey with
  | none, _ => ⟨db, [], some "Missing seller pubkey"⟩
  | some _, none => ⟨db, [], some "Missing buyer pubkey"⟩
  | some seller, some buyer =>
    let order1 :=
      if buyer = sender then { order with buyer_cooperativecancel := true }
      else { order with seller_cooperativecancel := true }
    let counterparty := if buyer = sender then seller else buyer
    match order.cancel_initiator_pubkey with
    | some initiator =>
      if initiator = sender then
        ⟨db, [Effect.cantDo request_id (some order_id) none sender], none⟩
      else
        let hashEffects := holdInvoiceEffects order
        let order2 := { order1 with status := Status.CooperativelyCanceled }
        let db1 := storeOrder db order2
        let (db2, pub1) := update_order_event db1 Status.CooperativelyCanceled order2
        ⟨db2,
         hashEffects ++ pub1 ++
           [Effect.sendMsg request_id (some order2.id) Action.CooperativeCancelAccepted sender,
            Effect.sendMsg none (some order2.id) Action.CooperativeCancelAccepted counterparty],
         none⟩
    | none =>
      let order2 := { order1 with cancel_initiator_pubkey := some sender }
      let db1 := storeOrder db order2
      ⟨db1,
       [Effect.sendMsg request_id (some order2.id) Action.CooperativeCancelInitiatedByYou sender,
        Effect.sendMsg none (some order2.id) Action.CooperativeCancelInitiatedByPeer counterparty],
       none⟩

/-- `cancel_action` (src/app/cancel.rs:18-191).  The source's three status
branches after the `Pending` case are sequential `if`s; they are written here
as an `else if` chain, which is equivalent because the status guards are
pairwise exclusive and neither helper changes the in-memory `order.status`. -/
def cancel_action (request_id : Option Nat) (msg_order_id : Option Nat)
    (sender : String) (db : List Order) : HandlerResult :=
  match msg_order_id with
  | none => ⟨db, [], some "No order id"⟩
  | some order_id =>
    match find_order_by_id db order_id sender with
    | none => ⟨db, [], none⟩
    | some order =>
      if order.status = Status.Canceled ∨ order.status = Status.CooperativelyCanceled
          ∨ order.status = Status.CanceledByAdmin then
        ⟨db,
         [Effect.cantDo request_id (some order_id)
            (some CantDoReason.OrderAlreadyCanceled) sender],
         none⟩
      else if order.status = Status.Pending then
        if sender ≠ order.creator_pubkey then
          ⟨db,
           [Effect.cantDo request_id (some order.id)
              (some CantDoReason.IsNotYourOrder) sender],
           none⟩
        else
          let (db1, pub1) := update_order_event db Status.Canceled order
          ⟨db1, pub1 ++ [Effect.sendMsg request_id (some order.id) Action.Canceled sender],
           none⟩
      else if order.kind = OrderKind.Sell ∧ order.status = Status.WaitingBuyerInvoice then
        cancel_add_invoice request_id sender order db
      else if order.kind = OrderKind.Buy ∧ order.status = Status.WaitingPayment then
        cancel_pay_hold_invoice request_id sender order db
      else if order.status = Status.Active ∨ order.status = Status.FiatSent
          ∨ order.status = Status.Dispute then
        cancel_action_cooperative request_id order_id sender order db
      else
        ⟨db, [], none⟩

/-- The order payload of a `NewOrder` message (`mostro_core` `SmallOrder`),
restricted to the fields `order_action` reads. -/
structure NewOrderContent where
  id : Option Nat
  amount : Int
  fiat_amount : Int
  min_amount : Option Int
  max_amount : Option Int
  premium : Int
  fiat_code : String
deriving DecidableEq, Repr

/-- The decoded inner message (`mostro_core` `MessageKind`), restricted to
what the handlers under `src/` read.  `verify_ok` is the result of the
external `verify()` call on the inner message kind. -/
structure InnerMessage where
  request_id : Option Nat
  id : Option Nat
  trade_index : Option Nat
  verify_ok : Bool
  action : Option Action
  order : Option NewOrderContent
  payment_request : Option String
deriving DecidableEq, Repr

/-- The configured limits read by `order_action` (`Settings::get_mostro()`). -/
structure MostroSettings where
  pow : Nat
  max_order_amount : Int
  min_payment_amount : Int
deriving DecidableEq, Repr

/-- Modelled from the spec: the external collaborators `order_action` calls
that are not under `src/` — `is_valid_invoice` (invoice shape validation) and
the price oracle (`get_bitcoin_price` together with the source's f64 quote
`(fiat_amount / price * 1e8) as i64`, abstracted as one integer-valued
function; `none` models an oracle error). -/
structure PriceEnv where
  invoice_valid : String → Bool
  quote_sats : Int → String → Option Int

/-- The per-fiat-amount loop of `order_action` (src/app/order.rs:91-131):
quote each endpoint (from the oracle when `amount == 0`), reject negative or
out-of-range quotes, and publish the order once every endpoint passes
(`publish_order`, src/app/order.rs:133-143). -/
def order_price_loop (env : PriceEnv) (settings : MostroSettings)
    (request_id : Option Nat) (order : NewOrderContent) (sender : String) :
    List Int → List Effect
  | [] => [Effect.publishOrder order.id sender]
  | fa :: rest =>
    let quoteResult : Option Int :=
      if order.amount = 0 then env.quote_sats fa order.fiat_code else some order.amount
    match quoteResult with
    | none => []
    | some quote =>
      if quote < 0 then
        [Effect.cantDo request_id none (some CantDoReason.InvalidAmount) sender]
      else if quote > settings.max_order_amount ∨ quote < settings.min_payment_amount then
        [Effect.cantDo request_id none (some CantDoReason.OutOfRangeSatsAmount) sender]
      else
        order_price_loop env settings request_id order sender rest

/-- The parameter check of `order_action` after the range validation
(src/app/order.rs:76-89): premium, fiat amount and sats amount may not all be
set at once; then the pricing loop runs. -/
def order_action_checks (env : PriceEnv) (settings : MostroSettings)
    (request_id : Option Nat) (order : NewOrderContent) (sender : String)
    (amount_vec : List Int) : List Effect :=
  if order.premium ≠ 0 ∧ order.fiat_amount ≠ 0 ∧ order.amount ≠ 0 then
    [Effect.cantDo request_id none (some CantDoReason.InvalidParameters) sender]
  else
    order_price_loop env settings request_id order sender amount_vec

/-- `order_action` (src/app/order.rs:12-146).  A supplied payment request is
validated first; then, when both `min_amount` and `max_amount` are present,
the range checks `min < max` and `amount == 0` run; the surviving fiat
amounts (`[fiat_amount]`, or `[min, max]` for a range order) go through the
parameter check and the pricing loop.  `order_action` never touches the
order store. -/
def order_action (env : PriceEnv) (settings : MostroSettings) (msg : InnerMessage)
    (sender : String) : List Effect :=
  match msg.order with
  | none => []
  | some order =>
    let invoiceRejected : Bool :=
      match msg.payment_request with
      | some invoice => ! env.invoice_valid invoice
      | none => false
    if invoiceRejected then
      [Effect.cantDo msg.request_id order.id (some CantDoReason.InvalidAmount) sender]
    else
      match order.min_amount, order.max_amount with
      | some mn, some mx =>
        if mn ≥ mx then
          [Effect.cantDo msg.request_id order.id (some CantDoReason.InvalidAmount) sender]
        else if order.amount ≠ 0 then
          [Effect.cantDo msg.request_id none (some CantDoReason.InvalidAmount) sender]
        else
          order_action_checks env settings msg.request_id order sender [mn, mx]
      | _, _ =>
        order_action_checks env settings msg.request_id order sender [order.fiat_amount]

/-- Modelled from the spec: the handlers dispatched by `handle_message_action`
whose code is not under `src/` (take_sell, take_buy, fiat_sent, release,
add_invoice, dispute, rate_user and the four admin handlers), abstracted as
functions from message, sender and order store to a handler result. -/
structure Handlers where
  take_sell_action : InnerMessage → String → List Order → HandlerResult
  take_buy_action : InnerMessage → String → List Order → HandlerResult
  fiat_sent_action : InnerMessage → String → List Order → HandlerResult
  release_action : InnerMessage → String → List Order → HandlerResult
  add_invoice_action : InnerMessage → String → List Order → HandlerResult
  dispute_action : InnerMessage → String → List Order → HandlerResult
  update_user_reputation_action : InnerMessage → String → List Order → HandlerResult
  admin_cancel_action : InnerMessage → String → List Order → HandlerResult
  admin_settle_action : InnerMessage → String → List Order → HandlerResult
  admin_add_solver_action : InnerMessage → String → List Order → HandlerResult
  admin_take_dispute_action : InnerMessage → String → List Order → HandlerResult

/-- Outcome of the action dispatch: either the chosen handler returned
(`Result` in the source, captured inside `HandlerResult.error`), or the
dispatch aborted the task with a panic. -/
inductive DispatchResult
  | ok (r : HandlerResult)
  | panicked
deriving Repr

/-- `handle_message_action` (src/app.rs:63-102).  `Action::PayInvoice` is
`todo!()` in the source, which panics; every unlisted action falls to the
catch-all arm that logs at info level and returns `Ok(())`. -/
def handle_message_action (hs : Handlers) (env : PriceEnv) (settings : MostroSettings)
    (action : Action) (msg : InnerMessage) (sender : String) (db : List Order) :
    DispatchResult :=
  match action with
  | Action.NewOrder => DispatchResult.ok ⟨db, order_action env settings msg sender, none⟩
  | Action.TakeSell => DispatchResult.ok (hs.take_sell_action msg sender db)
  | Action.TakeBuy => DispatchResult.ok (hs.take_buy_action msg sender db)
  | Action.FiatSent => DispatchResult.ok (hs.fiat_sent_action msg sender db)
  | Action.Release => DispatchResult.ok (hs.release_action msg sender db)
  | Action.AddInvoice => DispatchResult.ok (hs.add_invoice_action msg sender db)
  | Action.PayInvoice => DispatchResult.panicked
  | Action.Dispute => DispatchResult.ok (hs.dispute_action msg sender db)
  | Action.RateUser => DispatchResult.ok (hs.update_user_reputation_action msg sender db)
  | Action.Cancel => DispatchResult.ok (cancel_action msg.request_id msg.id sender db)
  | Action.AdminCancel => DispatchResult.ok (hs.admin_cancel_action msg sender db)
  | Action.AdminSettle => DispatchResult.ok (hs.admin_settle_action msg sender db)
  | Action.AdminAddSolver => DispatchResult.ok (hs.admin_add_solver_action msg sender db)
  | Action.AdminTakeDispute => DispatchResult.ok (hs.admin_take_dispute_action msg sender db)
  | _ => DispatchResult.ok ⟨db, [], none⟩

/-- The unwrapped rumor: the true sender's pubkey, its timestamp and the
decode result of its JSON content (`Message::from_json`; `none` models a
parse failure).  Unwrap and decode are external (`nip59`, `mostro_core`). -/
structure Rumor where
  pubkey : String
  created_at : Nat
  message : Option InnerMessage
deriving Repr

/-- One inbound transport notification carrying an event, as seen by `run`.
The crypto checks are external (`nostr` crate), so their results are fields:
`pow_ok` is `event.check_pow(pow)`, `sig_ok` is `event.verify().is_ok()`,
`unwrap` is the result of `unwrap_gift_wrap` (`none` models an unwrap
error). -/
structure InboundEvent where
  is_gift_wrap : Bool
  pow_ok : Bool
  sig_ok : Bool
  unwrap : Option Rumor
deriving Repr

/-- Where the ingress loop body left a notification. -/
inductive IngressOutcome
  | rejectedPow
  | ignoredKind
  | unwrapFailed
  | rejectedStale
  | rejectedParse
  | rejectedInnerVerify
  | noAction
  | panicked
  | handled (action : Action) (db : List Order) (effects : List Effect) (warned : Bool)
deriving Repr

/-- The per-notification body of `run` (src/app.rs:125-177).  The signature
verification failure at src/app.rs:135-137 is only logged: the `if` has no
`continue`, so `sig_ok` is not consulted and processing falls through to the
unwrap.  An unwrap error propagates out of the loop through `?`
(`unwrapFailed`).  The freshness gate drops rumors with
`created_at < now − 10` before the decode.  A handler error is logged through
`warning_msg` at warn level and the loop continues (`warned`). -/
def run_step (hs : Handlers) (env : PriceEnv) (settings : MostroSettings)
    (now : Nat) (e : InboundEvent) (db : List Order) : IngressOutcome :=
  if ! e.pow_ok then IngressOutcome.rejectedPow
  else if e.is_gift_wrap then
    match e.unwrap with
    | none => IngressOutcome.unwrapFailed
    | some rumor =>
      if rumor.created_at < now - 10 then IngressOutcome.rejectedStale
      else
        match rumor.message with
        | none => IngressOutcome.rejectedParse
        | some msg =>
          if ! msg.verify_ok then IngressOutcome.rejectedInnerVerify
          else
            match msg.action with
            | none => IngressOutcome.noAction
            | some action =>
              match handle_message_action hs env settings action msg rumor.pubkey db with
              | DispatchResult.panicked => IngressOutcome.panicked
              | DispatchResult.ok r =>
                IngressOutcome.handled action r.db r.effects r.error.isSome
  else IngressOutcome.ignoredKind

/-- Outcomes in which the rumor's JSON content was decoded (step 6 of the
ingress pipeline) — everything at the decode or beyond. -/
def reachesDecode : IngressOutcome → Bool
  | IngressOutcome.rejectedParse => true
  | IngressOutcome.rejectedInnerVerify => true
  | IngressOutcome.noAction => true
  | IngressOutcome.panicked => true
  | IngressOutcome.handled _ _ _ _ => true
  | _ => false

/-- Outcomes in which a handler was dispatched. -/
def handlerDispatched : IngressOutcome → Bool
  | IngressOutcome.panicked => true
  | IngressOutcome.handled _ _ _ _ => true
  | _ => false

/-! ## Concrete fixtures used by witnesses and counterexamples -/

/-- A trivial instantiation of the handlers whose code is not under `src/`. -/
def trivialHandlers : Handlers where
  take_sell_action := fun _ _ db => ⟨db, [], none⟩
  take_buy_action := fun _ _ db => ⟨db, [], none⟩
  fiat_sent_action := fun _ _ db => ⟨db, [], none⟩
  release_action := fun _ _ db => ⟨db, [], none⟩
  add_invoice_action := fun _ _ db => ⟨db, [], none⟩
  dispute_action := fun _ _ db => ⟨db, [], none⟩
  update_user_reputation_action := fun _ _ db => ⟨db, [], none⟩
  admin_cancel_action := fun _ _ db => ⟨db, [], none⟩
  admin_settle_action := fun _ _ db => ⟨db, [], none⟩
  admin_add_solver_action := fun _ _ db => ⟨db, [], none⟩
  admin_take_dispute_action := fun _ _ db => ⟨db, [], none⟩

/-- A benign environment: every invoice valid, every quote 1000 sats. -/
def benignEnv : PriceEnv where
  invoice_valid := fun _ => true
  quote_sats := fun _ _ => some 1000

/-- Sample configured limits. -/
def sampleSettings : MostroSettings := ⟨0, 1000000, 100⟩

/-- A pending Sell order created by `"maker"`. -/
def pendingOrder : Order :=
  { id := 1, kind := OrderKind.Sell, status := Status.Pending,
    creator_pubkey := "maker", buyer_pubkey := none, seller_pubkey := some "maker",
    amount := 5000, fee := 50, price_from_api := false, hash := none, preimage := none,
    cancel_initiator_pubkey := none, buyer_cooperativecancel := false,
    seller_cooperativecancel := false }

/-- A Sell order created by `"seller1"`, taken by `"buyer1"`, waiting for the
buyer's invoice, with a hold invoice issued. -/
def takenSellOrder : Order :=
  { id := 2, kind := OrderKind.Sell, status := Status.WaitingBuyerInvoice,
    creator_pubkey := "seller1", buyer_pubkey := some "buyer1",
    seller_pubkey := some "seller1", amount := 7000, fee := 70, price_from_api := true,
    hash := some "hash1", preimage := none, cancel_initiator_pubkey := none,
    buyer_cooperativecancel := false, seller_cooperativecancel := false }

/-- A Buy order created by `"buyer2"`, taken by `"seller2"`, waiting for the
seller to pay the hold invoice. -/
def takenBuyOrder : Order :=
  { id := 3, kind := OrderKind.Buy, status := Status.WaitingPayment,
    creator_pubkey := "buyer2", buyer_pubkey := some "buyer2",
    seller_pubkey := some "seller2", amount := 9000, fee := 90, price_from_api := true,
    hash := some "hash2", preimage := none, cancel_initiator_pubkey := none,
    buyer_cooperativecancel := false, seller_cooperativecancel := false }

/-- An active order between `"buyer3"` (creator) and `"seller3"`. -/
def activeOrder : Order :=
  { id := 4, kind := OrderKind.Buy, status := Status.Active,
    creator_pubkey := "buyer3", buyer_pubkey := some "buyer3",
    seller_pubkey := some "seller3", amount := 11000, fee := 110, price_from_api := false,
    hash := some "hash3", preimage := none, cancel_initiator_pubkey := none,
    buyer_cooperativecancel := false, seller_cooperativecancel := false }

/-! ## Claims -/

/-- Claim C6: for an order in status `Pending`, a `Cancel` succeeds exactly
when the sender is the creator: then the status becomes `Canceled`, a cancel
event is published and the sender is notified; a participant other than the
creator is rejected with `CantDo(IsNotYourOrder)` and the order is
unchanged. -/
theorem pending_cancel_creator_only (request_id : Option Nat) (o : Order) (sender : String)
    (hst : o.status = Status.Pending) (hp : isParticipant sender o = true) :
    (sender = o.creator_pubkey →
      cancel_action request_id (some o.id) sender [o] =
        ⟨[{ o with status := Status.Canceled }],
         [Effect.publishEvent o.id Status.Canceled,
          Effect.sendMsg request_id (some o.id) Action.Canceled sender], none⟩) ∧
    (sender ≠ o.creator_pubkey →
      cancel_action request_id (some o.id) sender [o] =
        ⟨[o],
         [Effect.cantDo request_id (some o.id) (some CantDoReason.IsNotYourOrder) sender],
         none⟩) := by
  have hfind : find_order_by_id [o] o.id sender = some o := by
    simp [find_order_by_id, List.find?, hp]
  constructor
  · intro hc
    subst hc
    simp [cancel_action, hfind, hst, update_order_event]
  · intro hc
    simp [cancel_action, hfind, hst, hc]

/-- Witness for C6: the creator cancels a concrete pending order. -/
theorem pending_cancel_creator_only_witness :
    pendingOrder.status = Status.Pending ∧ isParticipant "maker" pendingOrder = true ∧
    cancel_action (some 9) (some pendingOrder.id) "maker" [pendingOrder] =
      ⟨[{ pendingOrder with status := Status.Canceled }],
       [Effect.publishEvent pendingOrder.id Status.Canceled,
        Effect.sendMsg (some 9) (some pendingOrder.id) Action.Canceled "maker"], none⟩ :=
  ⟨rfl, by decide,
   (pending_cancel_creator_only (some 9) pendingOrder "maker" rfl (by decide)).1 rfl⟩

/-- Claim C9: a `Cancel` whose order id does not exist in the store, or whose
order is not associated with the sender's pubkey, sends no reply and changes
no order state: the handler returns `Ok(())` after only logging. -/
theorem cancel_unknown_order_silent (request_id : Option Nat) (order_id : Nat)
    (sender : String) (db : List Order)
    (h : ∀ o ∈ db, o.id ≠ order_id ∨ isParticipant sender o = false) :
    cancel_action request_id (some order_id) sender db = ⟨db, [], none⟩ := by
  have hfind : find_order_by_id db order_id sender = none := by
    unfold find_order_by_id
    apply List.find?_eq_none.mpr
    intro o ho
    rcases h o ho with h1 | h1
    · simp [h1]
    · simp [h1]
  simp [cancel_action, hfind]

/-- Witness for C9: a stranger cancels an existing order, and a participant
cancels a nonexistent order id; both are silently dropped. -/
theorem cancel_unknown_order_silent_witness :
    cancel_action (some 3) (some 42) "stranger" [pendingOrder] =
      ⟨[pendingOrder], [], none⟩ ∧
    cancel_action (some 3) (some 77) "maker" [pendingOrder] =
      ⟨[pendingOrder], [], none⟩ :=
  ⟨cancel_unknown_order_silent (some 3) 42 "stranger" [pendingOrder] (by decide),
   cancel_unknown_order_silent (some 3) 77 "maker" [pendingOrder] (by decide)⟩

/-- Claim C10: for a Sell order in `WaitingBuyerInvoice` with a hold-invoice
hash set, any participant's `Cancel` reaches the hold-invoice cancellation
first — it is the first effect performed, before the sender-role check — and
in particular a `Cancel` from the seller still cancels the hold invoice even
though the request is then rejected with a reasonless `CantDo` and the order
row is unchanged. -/
theorem sell_wbi_hold_invoice_cancel_first (request_id : Option Nat) (o : Order)
    (b s h sender : String)
    (hk : o.kind = OrderKind.Sell) (hst : o.status = Status.WaitingBuyerInvoice)
    (hh : o.hash = some h) (hb : o.buyer_pubkey = some b) (hs : o.seller_pubkey = some s)
    (hp : isParticipant sender o = true) :
    (cancel_action request_id (some o.id) sender [o]).effects.head? =
        some (Effect.cancelHoldInvoice h) ∧
    (sender = s → s ≠ b →
      cancel_action request_id (some o.id) sender [o] =
        ⟨[o],
         [Effect.cancelHoldInvoice h, Effect.cantDo request_id (some o.id) none sender],
         none⟩) := by
  have hfind : find_order_by_id [o] o.id sender = some o := by
    simp [find_order_by_id, List.find?, hp]
  have hred : cancel_action request_id (some o.id) sender [o] =
      cancel_add_invoice request_id sender o [o] := by
    simp [cancel_action, hfind, hst, hk]
  constructor
  · rw [hred]
    by_cases hbs : b ≠ sender
    · simp [cancel_add_invoice, hb, hs, hbs, holdInvoiceEffects, hh]
    · by_cases hcr : o.creator_pubkey = b
      · simp [cancel_add_invoice, hb, hs, hbs, hcr, holdInvoiceEffects, hh, update_order_event]
      · simp [cancel_add_invoice, hb, hs, hbs, hcr, holdInvoiceEffects, hh, update_order_event]
  · intro hsend hneq
    subst hsend
    rw [hred]
    have hbs : b ≠ sender := fun hq => hneq hq.symm
    simp [cancel_add_invoice, hb, hs, hbs, holdInvoiceEffects, hh]

/-- Witness for C10: the seller of a concrete taken Sell order sends
`Cancel`; the hold invoice is cancelled and the request is rejected. -/
theorem sell_wbi_hold_invoice_cancel_first_witness :
    cancel_action (some 4) (some takenSellOrder.id) "seller1" [takenSellOrder] =
      ⟨[takenSellOrder],
       [Effect.cancelHoldInvoice "hash1", Effect.cantDo (some 4) (some takenSellOrder.id) none "seller1"],
       none⟩ :=
  (sell_wbi_hold_invoice_cancel_first (some 4) takenSellOrder "buyer1" "seller1" "hash1"
      "seller1" rfl rfl rfl rfl rfl (by decide)).2 rfl (by decide)

/-- Claim C5: a taker's `Cancel` on a taken-but-pre-Active order republishes
it: for a Sell order in `WaitingBuyerInvoice` cancelled by a buyer who is not
the creator (and symmetrically a Buy order in `WaitingPayment` cancelled by a
non-creator seller), the taker's pubkey is cleared, `amount` and `fee` are
reset to 0 exactly when `price_from_api`, the status returns to `Pending`, a
new replaceable event is published, and the creator is unchanged. -/
theorem taker_cancel_republish :
    (∀ (request_id : Option Nat) (o : Order) (b s : String),
      o.kind = OrderKind.Sell → o.status = Status.WaitingBuyerInvoice →
      o.buyer_pubkey = some b → o.seller_pubkey = some s → b ≠ o.creator_pubkey →
      ∃ o', cancel_action request_id (some o.id) b [o] =
          ⟨[o'],
           holdInvoiceEffects o ++
             [Effect.publishEvent o.id Status.Pending,
              Effect.sendMsg request_id (some o.id) Action.Canceled b], none⟩ ∧
        o'.buyer_pubkey = none ∧ o'.status = Status.Pending ∧
        o'.creator_pubkey = o.creator_pubkey ∧ o'.seller_pubkey = o.seller_pubkey ∧
        o'.amount = (if o.price_from_api then 0 else o.amount) ∧
        o'.fee = (if o.price_from_api then 0 else o.fee)) ∧
    (∀ (request_id : Option Nat) (o : Order) (b s : String),
      o.kind = OrderKind.Buy → o.status = Status.WaitingPayment →
      o.buyer_pubkey = some b → o.seller_pubkey = some s → s ≠ o.creator_pubkey →
      ∃ o', cancel_action request_id (some o.id) s [o] =
          ⟨[o'],
           holdInvoiceEffects o ++
             [Effect.publishEvent o.id Status.Pending,
              Effect.sendMsg request_id (some o.id) Action.Canceled s], none⟩ ∧
        o'.seller_pubkey = none ∧ o'.status = Status.Pending ∧
        o'.creator_pubkey = o.creator_pubkey ∧ o'.buyer_pubkey = o.buyer_pubkey ∧
        o'.amount = (if o.price_from_api then 0 else o.amount) ∧
        o'.fee = (if o.price_from_api then 0 else o.fee)) := by
  constructor
  · intro request_id o b s hk hst hb hs hbc
    have hp : isParticipant b o = true := by simp [isParticipant, hb]
    have hfind : find_order_by_id [o] o.id b = some o := by
      simp [find_order_by_id, List.find?, hp]
    have hred : cancel_action request_id (some o.id) b [o] =
        cancel_add_invoice request_id b o [o] := by
      simp [cancel_action, hfind, hst, hk]
    have hcr : o.creator_pubkey ≠ b := Ne.symm hbc
    refine ⟨{ o with
                buyer_pubkey := none,
                status := Status.Pending,
                amount := (if o.price_from_api then 0 else o.amount),
                fee := (if o.price_from_api then 0 else o.fee) }, ?_,
            by simp, by simp, by simp, by simp, by simp, by simp⟩
    rw [hred]
    simp [cancel_add_invoice, hb, hs, hcr, edit_buyer_pubkey_order,
      update_order_to_initial_state, update_order_event]
  · intro request_id o b s hk hst hb hs hsc
    have hp : isParticipant s o = true := by simp [isParticipant, hs]
    have hfind : find_order_by_id [o] o.id s = some o := by
      simp [find_order_by_id, List.find?, hp]
    have hred : cancel_action request_id (some o.id) s [o] =
        cancel_pay_hold_invoice request_id s o [o] := by
      simp [cancel_action, hfind, hst, hk]
    have hcr : o.creator_pubkey ≠ s := Ne.symm hsc
    refine ⟨{ o with
                seller_pubkey := none,
                status := Status.Pending,
                amount := (if o.price_from_api then 0 else o.amount),
                fee := (if o.price_from_api then 0 else o.fee) }, ?_,
            by simp, by simp, by simp, by simp, by simp, by simp⟩
    rw [hred]
    simp [cancel_pay_hold_invoice, hb, hs, hcr, edit_seller_pubkey_order,
      update_order_to_initial_state, update_order_event]

/-- Witness for C5: the buyer (taker) of a concrete taken Sell order and the
seller (taker) of a concrete taken Buy order each cancel; both hypotheses of
`taker_cancel_republish` are discharged at these inputs. -/
theorem taker_cancel_republish_witness :
    (∃ o', cancel_action (some 5) (some takenSellOrder.id) "buyer1" [takenSellOrder] =
        ⟨[o'],
         holdInvoiceEffects takenSellOrder ++
           [Effect.publishEvent takenSellOrder.id Status.Pending,
            Effect.sendMsg (some 5) (some takenSellOrder.id) Action.Canceled "buyer1"],
         none⟩ ∧
      o'.buyer_pubkey = none ∧ o'.status = Status.Pending ∧
      o'.creator_pubkey = takenSellOrder.creator_pubkey ∧
      o'.seller_pubkey = takenSellOrder.seller_pubkey ∧
      o'.amount = (if takenSellOrder.price_from_api then 0 else takenSellOrder.amount) ∧
      o'.fee = (if takenSellOrder.price_from_api then 0 else takenSellOrder.fee)) ∧
    (∃ o', cancel_action (some 6) (some takenBuyOrder.id) "seller2" [takenBuyOrder] =
        ⟨[o'],
         holdInvoiceEffects takenBuyOrder ++
           [Effect.publishEvent takenBuyOrder.id Status.Pending,
            Effect.sendMsg (some 6) (some takenBuyOrder.id) Action.Canceled "seller2"],
         none⟩ ∧
      o'.seller_pubkey = none ∧ o'.status = Status.Pending ∧
      o'.creator_pubkey = takenBuyOrder.creator_pubkey ∧
      o'.buyer_pubkey = takenBuyOrder.buyer_pubkey ∧
      o'.amount = (if takenBuyOrder.price_from_api then 0 else takenBuyOrder.amount) ∧
      o'.fee = (if takenBuyOrder.price_from_api then 0 else takenBuyOrder.fee)) :=
  ⟨taker_cancel_republish.1 (some 5) takenSellOrder "buyer1" "seller1"
      rfl rfl rfl rfl (by decide),
   taker_cancel_republish.2 (some 6) takenBuyOrder "buyer2" "seller2"
      rfl rfl rfl rfl (by decide)⟩

/-- A Sell order in `WaitingBuyerInvoice` whose creator is the buyer — the
row shape `cancel_add_invoice`'s creator branch handles. -/
def sellCreatorBuyerOrder : Order :=
  { id := 5, kind := OrderKind.Sell, status := Status.WaitingBuyerInvoice,
    creator_pubkey := "cb", buyer_pubkey := some "cb", seller_pubkey := some "s5",
    amount := 100, fee := 1, price_from_api := false, hash := some "hash5",
    preimage := none, cancel_initiator_pubkey := none,
    buyer_cooperativecancel := false, seller_cooperativecancel := false }

/-- A Buy order in `WaitingPayment` whose creator is the seller. -/
def buyCreatorSellerOrder : Order :=
  { id := 6, kind := OrderKind.Buy, status := Status.WaitingPayment,
    creator_pubkey := "cs", buyer_pubkey := some "b6", seller_pubkey := some "cs",
    amount := 200, fee := 2, price_from_api := false, hash := some "hash6",
    preimage := none, cancel_initiator_pubkey := none,
    buyer_cooperativecancel := false, seller_cooperativecancel := false }

/-- Counterexample to C1 as stated: on a Sell order in `WaitingBuyerInvoice`
whose canceller `"cb"` is a participant (the buyer) and the creator, the code
publishes and stores status `CooperativelyCanceled` — no cancel event with
status `Canceled` is ever published (src/app/cancel.rs:223 passes
`Status::CooperativelyCanceled`, while the notifications carry
`Action::Canceled` and the sibling branch at src/app/cancel.rs:305 passes
`Status::Canceled`). -/
theorem cancel_creator_sell_counterexample :
    cancel_action (some 7) (some 5) "cb" [sellCreatorBuyerOrder] =
      ⟨[{ sellCreatorBuyerOrder with status := Status.CooperativelyCanceled }],
       [Effect.cancelHoldInvoice "hash5",
        Effect.publishEvent 5 Status.CooperativelyCanceled,
        Effect.sendMsg (some 7) (some 5) Action.Canceled "cb",
        Effect.sendMsg none (some 5) Action.Canceled "s5"], none⟩ ∧
    Effect.publishEvent 5 Status.Canceled ∉
      (cancel_action (some 7) (some 5) "cb" [sellCreatorBuyerOrder]).effects := by
  constructor
  · rfl
  · decide

/-- Claim C1 (amended): the creator-cancel of a taken-but-pre-Active order is
role-gated.  For a Sell order in `WaitingBuyerInvoice` whose canceller is the
buyer and the creator, the hold invoice (if its hash is set) is cancelled and
the order terminates with published and stored status `CooperativelyCanceled`
(both parties are notified with action `Canceled`); for a Buy order in
`WaitingPayment` whose canceller is the seller and the creator, the hold
invoice (if set) is cancelled and the order terminates in status
`Canceled`. -/
theorem cancel_creator_terminates :
    (∀ (request_id : Option Nat) (o : Order) (b s : String),
      o.kind = OrderKind.Sell → o.status = Status.WaitingBuyerInvoice →
      o.buyer_pubkey = some b → o.seller_pubkey = some s → o.creator_pubkey = b →
      cancel_action request_id (some o.id) b [o] =
        ⟨[{ o with status := Status.CooperativelyCanceled }],
         holdInvoiceEffects o ++
           [Effect.publishEvent o.id Status.CooperativelyCanceled,
            Effect.sendMsg request_id (some o.id) Action.Canceled b,
            Effect.sendMsg none (some o.id) Action.Canceled s], none⟩) ∧
    (∀ (request_id : Option Nat) (o : Order) (b s : String),
      o.kind = OrderKind.Buy → o.status = Status.WaitingPayment →
      o.buyer_pubkey = some b → o.seller_pubkey = some s → o.creator_pubkey = s →
      cancel_action request_id (some o.id) s [o] =
        ⟨[{ o with status := Status.Canceled }],
         holdInvoiceEffects o ++
           [Effect.publishEvent o.id Status.Canceled,
            Effect.sendMsg request_id (some o.id) Action.Canceled s,
            Effect.sendMsg none (some o.id) Action.Canceled s], none⟩) := by
  constructor
  · intro request_id o b s hk hst hb hs hcr
    have hp : isParticipant b o = true := by simp [isParticipant, hb]
    have hfind : find_order_by_id [o] o.id b = some o := by
      simp [find_order_by_id, List.find?, hp]
    have hred : cancel_action request_id (some o.id) b [o] =
        cancel_add_invoice request_id b o [o] := by
      simp [cancel_action, hfind, hst, hk]
    rw [hred]
    simp [cancel_add_invoice, hb, hs, hcr, update_order_event]
  · intro request_id o b s hk hst hb hs hcr
    have hp : isParticipant s o = true := by simp [isParticipant, hs]
    have hfind : find_order_by_id [o] o.id s = some o := by
      simp [find_order_by_id, List.find?, hp]
    have hred : cancel_action request_id (some o.id) s [o] =
        cancel_pay_hold_invoice request_id s o [o] := by
      simp [cancel_action, hfind, hst, hk]
    rw [hred]
    simp [cancel_pay_hold_invoice, hb, hs, hcr, update_order_event]

/-- Witness for the amended C1: the creator-buyer of a concrete Sell order in
`WaitingBuyerInvoice` and the creator-seller of a concrete Buy order in
`WaitingPayment` each cancel. -/
theorem cancel_creator_terminates_witness :
    cancel_action (some 8) (some 5) "cb" [sellCreatorBuyerOrder] =
      ⟨[{ sellCreatorBuyerOrder with status := Status.CooperativelyCanceled }],
       holdInvoiceEffects sellCreatorBuyerOrder ++
         [Effect.publishEvent 5 Status.CooperativelyCanceled,
          Effect.sendMsg (some 8) (some 5) Action.Canceled "cb",
          Effect.sendMsg none (some 5) Action.Canceled "s5"], none⟩ ∧
    cancel_action (some 8) (some 6) "cs" [buyCreatorSellerOrder] =
      ⟨[{ buyCreatorSellerOrder with status := Status.Canceled }],
       holdInvoiceEffects buyCreatorSellerOrder ++
         [Effect.publishEvent 6 Status.Canceled,
          Effect.sendMsg (some 8) (some 6) Action.Canceled "cs",
          Effect.sendMsg none (some 6) Action.Canceled "cs"], none⟩ :=
  ⟨cancel_creator_terminates.1 (some 8) sellCreatorBuyerOrder "cb" "s5"
      rfl rfl rfl rfl rfl,
   cancel_creator_terminates.2 (some 8) buyCreatorSellerOrder "b6" "cs"
      rfl rfl rfl rfl rfl⟩

/-- Claim C2: for an order in `Active`, `FiatSent` or `Dispute`: the first
accepted `Cancel` from a participant records the sender as
`cancel_initiator_pubkey`, leaves the status unchanged and notifies both
parties; a later `Cancel` from the recorded initiator's pubkey is rejected
with a reasonless `CantDo` and changes no order state; a `Cancel` from a
pubkey other than the recorded initiator completes the cooperative cancel:
the hold invoice is cancelled when its hash is set, the status becomes
`CooperativelyCanceled` (the initiator record is not overwritten), and
`CooperativeCancelAccepted` goes to both parties. -/
theorem cooperative_cancel_protocol (request_id : Option Nat) (o : Order)
    (b s sender : String)
    (hst : o.status = Status.Active ∨ o.status = Status.FiatSent ∨ o.status = Status.Dispute)
    (hb : o.buyer_pubkey = some b) (hs : o.seller_pubkey = some s)
    (hsend : sender = b ∨ sender = s) :
    (o.cancel_initiator_pubkey = none →
      ∃ o', cancel_action request_id (some o.id) sender [o] =
          ⟨[o'],
           [Effect.sendMsg request_id (some o.id)
              Action.CooperativeCancelInitiatedByYou sender,
            Effect.sendMsg none (some o.id) Action.CooperativeCancelInitiatedByPeer
              (if b = sender then s else b)], none⟩ ∧
        o'.cancel_initiator_pubkey = some sender ∧ o'.status = o.status) ∧
    (o.cancel_initiator_pubkey = some sender →
      cancel_action request_id (some o.id) sender [o] =
        ⟨[o], [Effect.cantDo request_id (some o.id) none sender], none⟩) ∧
    (∀ i, o.cancel_initiator_pubkey = some i → i ≠ sender →
      ∃ o', cancel_action request_id (some o.id) sender [o] =
          ⟨[o'],
           holdInvoiceEffects o ++
             [Effect.publishEvent o.id Status.CooperativelyCanceled,
              Effect.sendMsg request_id (some o.id) Action.CooperativeCancelAccepted sender,
              Effect.sendMsg none (some o.id) Action.CooperativeCancelAccepted
                (if b = sender then s else b)], none⟩ ∧
        o'.status = Status.CooperativelyCanceled ∧
        o'.cancel_initiator_pubkey = some i) := by
  have hp : isParticipant sender o = true := by
    rcases hsend with h | h <;> subst h <;> simp [isParticipant, hb, hs]
  have hfind : find_order_by_id [o] o.id sender = some o := by
    simp [find_order_by_id, List.find?, hp]
  have hred : cancel_action request_id (some o.id) sender [o] =
      cancel_action_cooperative request_id o.id sender o [o] := by
    rcases hst with h | h | h <;> simp [cancel_action, hfind, h]
  refine ⟨?_, ?_, ?_⟩
  · intro hinit
    rw [hred]
    by_cases hbs : b = sender
    · exact ⟨{ o with
                 buyer_cooperativecancel := true,
                 cancel_initiator_pubkey := some sender },
        by simp [cancel_action_cooperative, hb, hs, hbs, hinit, storeOrder],
        by simp, by simp⟩
    · exact ⟨{ o with
                 seller_cooperativecancel := true,
                 cancel_initiator_pubkey := some sender },
        by simp [cancel_action_cooperative, hb, hs, hbs, hinit, storeOrder],
        by simp, by simp⟩
  · intro hinit
    rw [hred]
    by_cases hbs : b = sender <;>
      simp [cancel_action_cooperative, hb, hs, hbs, hinit]
  · intro i hinit hne
    rw [hred]
    have hne' : ¬ i = sender := hne
    by_cases hbs : b = sender
    · exact ⟨{ o with
                 buyer_cooperativecancel := true,
                 status := Status.CooperativelyCanceled },
        by simp [cancel_action_cooperative, hb, hs, hbs, hinit, hne', storeOrder,
          update_order_event],
        by simp, by simp [hinit]⟩
    · exact ⟨{ o with
                 seller_cooperativecancel := true,
                 status := Status.CooperativelyCanceled },
        by simp [cancel_action_cooperative, hb, hs, hbs, hinit, hne', storeOrder,
          update_order_event],
        by simp, by simp [hinit]⟩

/-- Witness for C2: the full cooperative-cancel exchange on a concrete active
order — the buyer initiates, the buyer's repeat is rejected, and the seller's
`Cancel` on the initiated order completes the cancel. -/
theorem cooperative_cancel_protocol_witness :
    (∃ o', cancel_action (some 10) (some activeOrder.id) "buyer3" [activeOrder] =
        ⟨[o'],
         [Effect.sendMsg (some 10) (some activeOrder.id)
            Action.CooperativeCancelInitiatedByYou "buyer3",
          Effect.sendMsg none (some activeOrder.id)
            Action.CooperativeCancelInitiatedByPeer "seller3"], none⟩ ∧
      o'.cancel_initiator_pubkey = some "buyer3" ∧ o'.status = activeOrder.status) ∧
    cancel_action (some 11) (some activeOrder.id) "buyer3"
        [{ activeOrder with cancel_initiator_pubkey := some "buyer3" }] =
      ⟨[{ activeOrder with cancel_initiator_pubkey := some "buyer3" }],
       [Effect.cantDo (some 11) (some activeOrder.id) none "buyer3"], none⟩ ∧
    (∃ o', cancel_action (some 12) (some activeOrder.id) "seller3"
          [{ activeOrder with cancel_initiator_pubkey := some "buyer3" }] =
        ⟨[o'],
         holdInvoiceEffects { activeOrder with cancel_initiator_pubkey := some "buyer3" } ++
           [Effect.publishEvent activeOrder.id Status.CooperativelyCanceled,
            Effect.sendMsg (some 12) (some activeOrder.id)
              Action.CooperativeCancelAccepted "seller3",
            Effect.sendMsg none (some activeOrder.id)
              Action.CooperativeCancelAccepted "buyer3"], none⟩ ∧
      o'.status = Status.CooperativelyCanceled ∧
      o'.cancel_initiator_pubkey = some "buyer3") := by
  refine ⟨?_, ?_, ?_⟩
  · have h := (cooperative_cancel_protocol (some 10) activeOrder "buyer3" "seller3"
      "buyer3" (Or.inl rfl) rfl rfl (Or.inl rfl)).1 rfl
    simpa using h
  · have h := (cooperative_cancel_protocol (some 11)
      { activeOrder with cancel_initiator_pubkey := some "buyer3" } "buyer3" "seller3"
      "buyer3" (Or.inl rfl) rfl rfl (Or.inl rfl)).2.1 rfl
    simpa using h
  · have h := (cooperative_cancel_protocol (some 12)
      { activeOrder with cancel_initiator_pubkey := some "buyer3" } "buyer3" "seller3"
      "seller3" (Or.inl rfl) rfl rfl (Or.inr rfl)).2.2 "buyer3" rfl (by decide)
    simpa using h

/-- A well-formed inbound `Cancel` message. -/
def cancelMsg : InnerMessage :=
  { request_id := some 1, id := some 1, trade_index := none, verify_ok := true,
    action := some Action.Cancel, order := none, payment_request := none }

/-- An inbound message carrying `Action::PayInvoice`. -/
def payMsg : InnerMessage :=
  { request_id := some 2, id := none, trade_index := none, verify_ok := true,
    action := some Action.PayInvoice, order := none, payment_request := none }

/-- A gift-wrap event that fails outer signature verification but is
otherwise well-formed (PoW ok, fresh, decodable `Cancel`). -/
def badSigEvent : InboundEvent :=
  ⟨true, true, false, some ⟨"alice", 100, some cancelMsg⟩⟩

/-- The same event with a valid signature. -/
def goodCancelEvent : InboundEvent :=
  ⟨true, true, true, some ⟨"alice", 100, some cancelMsg⟩⟩

/-- A well-formed gift-wrap event whose message asks for `PayInvoice`. -/
def payInvoiceEvent : InboundEvent :=
  ⟨true, true, true, some ⟨"alice", 100, some payMsg⟩⟩

/-- A well-formed gift-wrap event whose rumor is 11 seconds old at a wall
clock of 111. -/
def staleEvent : InboundEvent :=
  ⟨true, true, true, some ⟨"alice", 100, some cancelMsg⟩⟩

/-- Claim C3 (code divergence): an inbound gift-wrap event whose outer
signature fails verification is NOT rejected.  The `if` at src/app.rs:135-137
only logs the failure — there is no `continue` — so the event is still
unwrapped, decoded and dispatched to a handler.  Evaluated at a concrete
event with an invalid signature: the handler runs. -/
theorem invalid_signature_still_handled :
    badSigEvent.sig_ok = false ∧
    handlerDispatched
      (run_step trivialHandlers benignEnv sampleSettings 100 badSigEvent []) = true ∧
    run_step trivialHandlers benignEnv sampleSettings 100 badSigEvent [] =
      IngressOutcome.handled Action.Cancel [] [] false := by
  refine ⟨rfl, ?_, ?_⟩ <;> rfl

/-- Counterexample to C4 as stated: dispatching `Action::PayInvoice` does not
log-and-drop — `handle_message_action` hits `todo!()` (src/app.rs:82) and the
dispatch panics, both at the dispatch and through the ingress loop body. -/
theorem pay_invoice_panics :
    handle_message_action trivialHandlers benignEnv sampleSettings Action.PayInvoice
      payMsg "alice" [] = DispatchResult.panicked ∧
    run_step trivialHandlers benignEnv sampleSettings 100 payInvoiceEvent [] =
      IngressOutcome.panicked := by
  refine ⟨?_, ?_⟩ <;> rfl

/-- Claim C4 (amended): for every recognised action other than `PayInvoice`,
the dispatch never panics: the handler returns a result, and the ingress loop
records any handler error as a warn-logged, dropped message (the `warned`
flag is exactly `error.isSome`) and continues.  A `PayInvoice` message
instead aborts the dispatch with a panic (`todo!()`). -/
theorem dispatch_no_panic_except_pay_invoice (hs : Handlers) (env : PriceEnv)
    (settings : MostroSettings) (now : Nat) (e : InboundEvent) (r : Rumor)
    (msg : InnerMessage) (a : Action) (db : List Order)
    (hpow : e.pow_ok = true) (hgw : e.is_gift_wrap = true) (hu : e.unwrap = some r)
    (hfresh : ¬ r.created_at < now - 10) (hm : r.message = some msg)
    (hv : msg.verify_ok = true) (ha : msg.action = some a)
    (hpi : a ≠ Action.PayInvoice) :
    ∃ res : HandlerResult,
      handle_message_action hs env settings a msg r.pubkey db = DispatchResult.ok res ∧
      run_step hs env settings now e db =
        IngressOutcome.handled a res.db res.effects res.error.isSome := by
  have hok : ∃ res, handle_message_action hs env settings a msg r.pubkey db =
      DispatchResult.ok res := by
    cases a
    case PayInvoice => exact absurd rfl hpi
    all_goals exact ⟨_, rfl⟩
  obtain ⟨res, hres⟩ := hok
  refine ⟨res, hres, ?_⟩
  simp [run_step, hpow, hgw, hu, hfresh, hm, hv, ha, hres]

/-- Witness for the amended C4: a fresh, verified `Cancel` message is
dispatched and handled without panic. -/
theorem dispatch_no_panic_except_pay_invoice_witness :
    ∃ res : HandlerResult,
      handle_message_action trivialHandlers benignEnv sampleSettings Action.Cancel
        cancelMsg "alice" [] = DispatchResult.ok res ∧
      run_step trivialHandlers benignEnv sampleSettings 100 goodCancelEvent [] =
        IngressOutcome.handled Action.Cancel res.db res.effects res.error.isSome :=
  dispatch_no_panic_except_pay_invoice trivialHandlers benignEnv sampleSettings 100
    goodCancelEvent ⟨"alice", 100, some cancelMsg⟩ cancelMsg Action.Cancel []
    rfl rfl rfl (by decide) rfl rfl rfl (by decide)

/-- Claim C8: an inbound message whose rumor is more than 10 seconds older
than the ingress wall clock never reaches the decode step (so no handler
runs for it), and a gift-wrapped event passing the PoW gate is dropped at
exactly the freshness check. -/
theorem stale_message_dropped (hs : Handlers) (env : PriceEnv)
    (settings : MostroSettings) (now : Nat) (e : InboundEvent) (db : List Order)
    (r : Rumor) (hu : e.unwrap = some r) (hold : r.created_at + 10 < now) :
    reachesDecode (run_step hs env settings now e db) = false ∧
    (e.pow_ok = true → e.is_gift_wrap = true →
      run_step hs env settings now e db = IngressOutcome.rejectedStale) := by
  have hlt : r.created_at < now - 10 := by omega
  constructor
  · by_cases hpow : e.pow_ok = true
    · by_cases hgw : e.is_gift_wrap = true
      · simp [run_step, hpow, hgw, hu, hlt, reachesDecode]
      · simp [run_step, hpow, hgw, reachesDecode]
    · simp [run_step, hpow, reachesDecode]
  · intro hpow hgw
    simp [run_step, hpow, hgw, hu, hlt]

/-- Witness for C8: an 11-second-old rumor at wall clock 111 is dropped at
the freshness gate. -/
theorem stale_message_dropped_witness :
    reachesDecode (run_step trivialHandlers benignEnv sampleSettings 111 staleEvent []) =
      false ∧
    run_step trivialHandlers benignEnv sampleSettings 111 staleEvent [] =
      IngressOutcome.rejectedStale :=
  ⟨(stale_message_dropped trivialHandlers benignEnv sampleSettings 111 staleEvent []
      ⟨"alice", 100, some cancelMsg⟩ rfl (by decide)).1,
   (stale_message_dropped trivialHandlers benignEnv sampleSettings 111 staleEvent []
      ⟨"alice", 100, some cancelMsg⟩ rfl (by decide)).2 rfl rfl⟩

/-- A well-formed range order: `min < max`, `amount == 0`. -/
def rangeOrderContent : NewOrderContent :=
  { id := some 9, amount := 0, fiat_amount := 0, min_amount := some 50,
    max_amount := some 500, premium := 0, fiat_code := "USD" }

/-- A `NewOrder` message carrying the well-formed range order. -/
def rangeOrderMsg : InnerMessage :=
  { request_id := some 13, id := none, trade_index := none, verify_ok := true,
    action := some Action.NewOrder, order := some rangeOrderContent,
    payment_request := none }

/-- A range order with inverted bounds (`min >= max`). -/
def badRangeContent : NewOrderContent :=
  { id := some 10, amount := 0, fiat_amount := 0, min_amount := some 500,
    max_amount := some 50, premium := 0, fiat_code := "USD" }

/-- A `NewOrder` message carrying the inverted-bounds range order. -/
def badRangeMsg : InnerMessage :=
  { request_id := some 14, id := none, trade_index := none, verify_ok := true,
    action := some Action.NewOrder, order := some badRangeContent,
    payment_request := none }

/-- Claim C7: a `NewOrder` whose order carries both `min_amount` and
`max_amount` is rejected with `CantDo(InvalidAmount)` and not published when
`min >= max`, or when `amount != 0`; otherwise it may proceed as a range
order (and does, on a concrete well-formed range order in a benign
environment). -/
theorem range_order_validation :
    (∀ (env : PriceEnv) (settings : MostroSettings) (msg : InnerMessage)
        (sender : String) (order : NewOrderContent) (mn mx : Int),
      msg.order = some order → order.min_amount = some mn →
      order.max_amount = some mx → mn ≥ mx →
      ∃ i, order_action env settings msg sender =
        [Effect.cantDo msg.request_id i (some CantDoReason.InvalidAmount) sender]) ∧
    (∀ (env : PriceEnv) (settings : MostroSettings) (msg : InnerMessage)
        (sender : String) (order : NewOrderContent) (mn mx : Int),
      msg.order = some order → order.min_amount = some mn →
      order.max_amount = some mx → mn < mx → order.amount ≠ 0 →
      ∃ i, order_action env settings msg sender =
        [Effect.cantDo msg.request_id i (some CantDoReason.InvalidAmount) sender]) ∧
    order_action benignEnv sampleSettings rangeOrderMsg "maker2" =
      [Effect.publishOrder (some 9) "maker2"] := by
  refine ⟨?_, ?_, ?_⟩
  · intro env settings msg sender order mn mx ho hmn hmx hge
    cases hpr : msg.payment_request with
    | none => exact ⟨order.id, by simp [order_action, ho, hpr, hmn, hmx, hge]⟩
    | some inv =>
      by_cases hv : env.invoice_valid inv = true
      · exact ⟨order.id, by simp [order_action, ho, hpr, hv, hmn, hmx, hge]⟩
      · exact ⟨order.id, by simp [order_action, ho, hpr, hv]⟩
  · intro env settings msg sender order mn mx ho hmn hmx hlt hamt
    have hge : ¬ mn ≥ mx := not_le.mpr hlt
    cases hpr : msg.payment_request with
    | none => exact ⟨none, by simp [order_action, ho, hpr, hmn, hmx, hge, hamt]⟩
    | some inv =>
      by_cases hv : env.invoice_valid inv = true
      · exact ⟨none, by simp [order_action, ho, hpr, hv, hmn, hmx, hge, hamt]⟩
      · exact ⟨order.id, by simp [order_action, ho, hpr, hv]⟩
  · rfl

/-- Witness for C7: the inverted-bounds range order is rejected with
`CantDo(InvalidAmount)`. -/
theorem range_order_validation_witness :
    ∃ i, order_action benignEnv sampleSettings badRangeMsg "maker2" =
      [Effect.cantDo (some 14) i (some CantDoReason.InvalidAmount) "maker2"] :=
  range_order_validation.1 benignEnv sampleSettings badRangeMsg "maker2"
    badRangeContent 500 50 rfl rfl rfl (by decide)

end Mostro
